import Mathlib

/-!
Verification of the webhook-verification and HTTP-transport core of a typed
client library for a payments REST API (`src/client.rs`,
`src/resources/event.rs`).

The embedding is shallow: Rust functions become Lean functions, machine
integers become `Nat`/`Int` with explicit bounds where they matter, fallible
operations return `Option`/`Except`, and a Rust panic is modelled by a
dedicated `crash` outcome.  External crates (the HMAC implementation, the
JSON (de)serializer) are either universally quantified function parameters or
definitions modelled from the specification, each marked as such in its doc
comment.
-/

namespace Stripe

/-! ## String primitives

Rust's `str::split`, `str::trim`, `str::parse::<i64>` and `str::as_bytes`,
re-implemented structurally over `List Char` so that every theorem below can
be evaluated by the kernel. -/

/-- ASCII whitespace recognizer used by the model of `str::trim`.  (Rust trims
the full Unicode `White_Space` set; the inputs handled here are ASCII.) -/
def isTrimWhitespace (c : Char) : Bool :=
  c = ' ' ∨ c = '\t' ∨ c = '\n' ∨ c = '\r'

/-- Model of Rust `str::trim`: drop leading and trailing whitespace. -/
def trimChars (cs : List Char) : List Char :=
  ((cs.dropWhile isTrimWhitespace).reverse.dropWhile isTrimWhitespace).reverse

/-- Model of Rust `str::split` with a single-character separator (the source
splits on `","` and `"="`): consecutive separators and boundary separators
produce empty fields, and the result is never empty. -/
def splitChar (sep : Char) : List Char → List (List Char)
  | [] => [[]]
  | c :: cs =>
    match splitChar sep cs with
    | [] => [[c]]
    | x :: xs => if c = sep then [] :: (x :: xs) else (c :: x) :: xs

/-- Interpret a nonempty run of decimal digits; `none` if empty or if any
character is not a digit. -/
def digitsToNat (cs : List Char) : Option Nat :=
  match cs with
  | [] => none
  | _ =>
    cs.foldl
      (fun acc c =>
        acc.bind fun n => if c.isDigit then some (n * 10 + (c.toNat - 48)) else none)
      (some 0)

/-- Model of Rust `str::parse::<i64>`: optional sign, at least one digit, no
other characters, and the value must fit in a 64-bit signed integer. -/
def parse_i64 (s : String) : Option Int :=
  match s.data with
  | '+' :: rest =>
    (digitsToNat rest).bind fun n =>
      if n ≤ 9223372036854775807 then some (Int.ofNat n) else none
  | '-' :: rest =>
    (digitsToNat rest).bind fun n =>
      if n ≤ 9223372036854775808 then some (-(Int.ofNat n)) else none
  | cs =>
    (digitsToNat cs).bind fun n =>
      if n ≤ 9223372036854775807 then some (Int.ofNat n) else none

/-- UTF-8 encoding of a single scalar value, as a list of byte values. -/
def utf8EncodeChar (c : Char) : List Nat :=
  let n := c.toNat
  if n < 0x80 then [n]
  else if n < 0x800 then
    [0xC0 ||| (n >>> 6), 0x80 ||| (n &&& 0x3F)]
  else if n < 0x10000 then
    [0xE0 ||| (n >>> 12), 0x80 ||| ((n >>> 6) &&& 0x3F), 0x80 ||| (n &&& 0x3F)]
  else
    [0xF0 ||| (n >>> 18), 0x80 ||| ((n >>> 12) &&& 0x3F),
     0x80 ||| ((n >>> 6) &&& 0x3F), 0x80 ||| (n &&& 0x3F)]

/-- UTF-8 encoding of a character list. -/
def utf8List : List Char → List Nat
  | [] => []
  | c :: cs => utf8EncodeChar c ++ utf8List cs

/-- Model of Rust `str::as_bytes`: the UTF-8 bytes of a string. -/
def utf8Bytes (s : String) : List Nat :=
  utf8List s.data

/-- Lowercase hexadecimal digit for a value below 16. -/
def hexDigitChar (n : Nat) : Char :=
  if n < 10 then Char.ofNat (48 + n) else Char.ofNat (87 + n)

/-- Lowercase hexadecimal rendering of a byte list, two digits per byte. -/
def hexEncodeChars : List Nat → List Char
  | [] => []
  | b :: bs => hexDigitChar (b / 16) :: hexDigitChar (b % 16) :: hexEncodeChars bs

/-- The hex digest string of a byte list, as produced by the sender side of
the documented signing scheme. -/
def hexEncode (bs : List Nat) : String :=
  String.mk (hexEncodeChars bs)

/-! ## The constant-time comparison primitive

Modelled from the spec: `MacResult::is_equal` of the MAC crate (a dependency,
its source is not under `src/`).  Per the specification's design note, the
primitive accumulates XOR differences across all bytes and compares the
accumulated value to zero at the end; byte lists of different lengths are
unequal.  `ct_fold` additionally returns the number of byte comparisons
performed, so that the absence of short-circuiting is itself a theorem. -/

/-- Accumulate XOR differences pairwise; the second component counts the byte
comparisons performed. -/
def ct_fold : List Nat → List Nat → Nat × Nat
  | a :: as, b :: bs =>
    let r := ct_fold as bs
    (r.1 ||| (a ^^^ b), r.2 + 1)
  | _, _ => (0, 0)

/-- Modelled from the spec: the constant-time equality check used on the
computed digest (`accumulate XOR differences across all bytes, compare the
accumulated value to zero at the end`); inputs of different lengths are
unequal. -/
def is_equal (code data : List Nat) : Bool :=
  if data.length = code.length then (ct_fold code data).1 == 0 else false

/-! ## JSON values and a JSON parser

Modelled from the spec: the body of a wire response and of a webhook payload
"is interpreted as UTF-8 text, then parsed as JSON" by the `serde_json`
dependency (not under `src/`).  The parser below covers the JSON fragment the
payloads of this library exercise: `null`, booleans, integers, strings with
simple escapes, arrays and objects. -/

/-- A JSON value.  Numbers are restricted to integers. -/
inductive Json
  | null
  | bool (b : Bool)
  | num (n : Int)
  | str (s : String)
  | arr (elems : List Json)
  | obj (fields : List (String × Json))

/-- Skip JSON whitespace. -/
def skipWs : List Char → List Char
  | c :: cs => if c = ' ' ∨ c = '\t' ∨ c = '\n' ∨ c = '\r' then skipWs cs else c :: cs
  | [] => []

/-- Match a literal suffix (the tail of `null`, `true`, `false`), returning
the remaining input. -/
def dropLit : List Char → List Char → Option (List Char)
  | [], rest => some rest
  | l :: ls, c :: cs => if c = l then dropLit ls cs else none
  | _ :: _, [] => none

/-- Parse the body of a JSON string literal (the opening quote already
consumed), with the simple escapes. -/
def parseStringBody : Nat → List Char → Except String (String × List Char)
  | 0, _ => .error "string nesting limit"
  | _ + 1, [] => .error "unexpected end of string literal"
  | fuel + 1, c :: cs =>
    if c = '"' then .ok ("", cs)
    else if c = '\\' then
      match cs with
      | [] => .error "unexpected end of escape"
      | e :: cs2 =>
        let esc : Except String Char :=
          if e = '"' then .ok '"'
          else if e = '\\' then .ok '\\'
          else if e = '/' then .ok '/'
          else if e = 'n' then .ok '\n'
          else if e = 't' then .ok '\t'
          else if e = 'r' then .ok '\r'
          else .error "unsupported escape"
        match esc with
        | .error m => .error m
        | .ok ch =>
          match parseStringBody fuel cs2 with
          | .ok (s, rest) => .ok (String.mk (ch :: s.data), rest)
          | .error m => .error m
    else
      match parseStringBody fuel cs with
      | .ok (s, rest) => .ok (String.mk (c :: s.data), rest)
      | .error m => .error m

/-- Take a maximal run of leading decimal digits. -/
def takeDigits : List Char → List Char × List Char
  | c :: cs =>
    if c.isDigit then
      let r := takeDigits cs
      (c :: r.1, r.2)
    else ([], c :: cs)
  | [] => ([], [])

mutual

/-- Parse one JSON value, returning it with the unconsumed input. -/
def parseJsonV : Nat → List Char → Except String (Json × List Char)
  | 0, _ => .error "nesting limit"
  | Nat.succ fuel, input =>
    match skipWs input with
    | [] => .error "unexpected end of input"
    | c :: cs =>
      if c = '{' then
        match skipWs cs with
        | '}' :: rest => .ok (.obj [], rest)
        | cs2 =>
          match parseMembers fuel cs2 with
          | .ok (ms, rest) => .ok (.obj ms, rest)
          | .error m => .error m
      else if c = '[' then
        match skipWs cs with
        | ']' :: rest => .ok (.arr [], rest)
        | cs2 =>
          match parseElements fuel cs2 with
          | .ok (xs, rest) => .ok (.arr xs, rest)
          | .error m => .error m
      else if c = '"' then
        match parseStringBody (cs.length + 1) cs with
        | .ok (s, rest) => .ok (.str s, rest)
        | .error m => .error m
      else if c = 'n' then
        match dropLit "ull".data cs with
        | some rest => .ok (.null, rest)
        | none => .error "invalid literal"
      else if c = 't' then
        match dropLit "rue".data cs with
        | some rest => .ok (.bool true, rest)
        | none => .error "invalid literal"
      else if c = 'f' then
        match dropLit "alse".data cs with
        | some rest => .ok (.bool false, rest)
        | none => .error "invalid literal"
      else if c = '-' then
        match takeDigits cs with
        | ([], _) => .error "invalid number"
        | (ds, rest) =>
          match digitsToNat ds with
          | some n => .ok (.num (-(Int.ofNat n)), rest)
          | none => .error "invalid number"
      else if c.isDigit then
        match takeDigits (c :: cs) with
        | (ds, rest) =>
          match digitsToNat ds with
          | some n => .ok (.num (Int.ofNat n), rest)
          | none => .error "invalid number"
      else .error "unexpected character"

/-- Parse the members of a JSON object after its opening brace (nonempty
case), consuming the closing brace. -/
def parseMembers : Nat → List Char → Except String (List (String × Json) × List Char)
  | 0, _ => .error "nesting limit"
  | Nat.succ fuel, input =>
    match skipWs input with
    | '"' :: cs =>
      match parseStringBody (cs.length + 1) cs with
      | .error m => .error m
      | .ok (key, rest) =>
        match skipWs rest with
        | ':' :: rest2 =>
          match parseJsonV fuel rest2 with
          | .error m => .error m
          | .ok (v, rest3) =>
            match skipWs rest3 with
            | ',' :: rest4 =>
              match parseMembers fuel rest4 with
              | .ok (ms, rest5) => .ok ((key, v) :: ms, rest5)
              | .error m => .error m
            | '}' :: rest4 => .ok ([(key, v)], rest4)
            | _ => .error "expected comma or closing brace"
        | _ => .error "expected colon"
    | _ => .error "expected string key"

/-- Parse the elements of a JSON array after its opening bracket (nonempty
case), consuming the closing bracket. -/
def parseElements : Nat → List Char → Except String (List Json × List Char)
  | 0, _ => .error "nesting limit"
  | Nat.succ fuel, input =>
    match parseJsonV fuel input with
    | .error m => .error m
    | .ok (v, rest) =>
      match skipWs rest with
      | ',' :: rest2 =>
        match parseElements fuel rest2 with
        | .ok (xs, rest3) => .ok (v :: xs, rest3)
        | .error m => .error m
      | ']' :: rest2 => .ok ([v], rest2)
      | _ => .error "expected comma or closing bracket"

end

/-- Parse a complete JSON document: one value followed only by whitespace. -/
def jsonParse (s : String) : Except String Json :=
  match parseJsonV (s.data.length + 1) s.data with
  | .error m => .error m
  | .ok (v, rest) =>
    match skipWs rest with
    | [] => .ok v
    | _ => .error "trailing characters"

/-- First binding of a key in a JSON object field list (serde keeps the first
occurrence it deserializes). -/
def lookupField (key : String) : List (String × Json) → Option Json
  | [] => none
  | (k, v) :: fs => if k = key then some v else lookupField key fs

/-! ## The event model (`src/resources/event.rs`)

`EventType` is the closed enumeration of known event names, with the wire
names from its serde `rename` attributes.  `EventObject` is the tag-dispatched
union keyed by the `"object"` discriminant field; the concrete resource
structs (`Charge`, `Invoice`, ...) are outside the specified core ("the core
consumes them only as opaque serializable/deserializable payload types"), so
each variant carries the JSON value it was decoded from, opaquely. -/

/-- The closed enumeration of known event names (`EventType` in the source). -/
inductive EventType
  | AccountUpdated
  | AccountApplicationDeauthorized
  | AccountExternalAccountCreated
  | AccountExternalAccountDeleted
  | AccountExternalAccountUpdated
  | ApplicationFeeCreated
  | ApplicationFeeRefunded
  | ApplicationFeeRefundUpdated
  | BalanceAvailable
  | ChargeCaptured
  | ChargeFailed
  | ChargePending
  | ChargeRefunded
  | ChargeSucceeded
  | ChargeUpdated
  | ChargeDisputeClosed
  | ChargeDisputeCreated
  | ChargeDisputeFundsReinstated
  | ChargeDisputeFundsWithdrawn
  | ChargeDisputeUpdated
  | ChargeRefundUpdated
  | CouponCreated
  | CouponDeleted
  | CouponUpdated
  | CustomerCreated
  | CustomerDeleted
  | CustomerUpdated
  | CustomerDiscountCreated
  | CustomerDiscountDeleted
  | CustomerDiscountUpdated
  | CustomerSourceCreated
  | CustomerSourceDeleted
  | CustomerSourceUpdated
  | CustomerSubscriptionCreated
  | CustomerSubscriptionDeleted
  | CustomerSubscriptionTrialWillEnd
  | CustomerSubscriptionUpdated
  | FileCreated
  | InvoiceCreated
  | InvoicePaymentFailed
  | InvoicePaymentSucceeded
  | InvoiceUpdated
  | InvoiceUpcoming
  | InvoiceItemCreated
  | InvoiceItemDeleted
  | InvoiceItemUpdated
  | OrderCreated
  | OrderPaymentFailed
  | OrderPaymentSucceeded
  | OrderUpdated
  | OrderReturnUpdated
  | PayoutCanceled
  | PayoutCreated
  | PayoutFailed
  | PayoutPaid
  | PayoutUpdated
  | PlanCreated
  | PlanDeleted
  | PlanUpdated
  | ProductCreated
  | ProductDeleted
  | ProductUpdated
  | ReviewClosed
  | ReviewOpened
  | SigmaScheduledQueryRunCreated
  | SkuCreated
  | SkuDeleted
  | SkuUpdated
  | SourceCanceled
  | Sourcechargeable
  | SourceFailed
  | SourceTransactionCreated
  | TransferCreated
  | TransferReversed
  | TransferUpdated

/-- The wire name of each event, from the `serde(rename = ...)` attributes. -/
def EventType.fromString : String → Option EventType
  | "account.updated" => some .AccountUpdated
  | "account.application.deauthorized" => some .AccountApplicationDeauthorized
  | "account.external_account.created" => some .AccountExternalAccountCreated
  | "account.external_account.deleted" => some .AccountExternalAccountDeleted
  | "account.external_account.updated" => some .AccountExternalAccountUpdated
  | "application_fee.created" => some .ApplicationFeeCreated
  | "application_fee.refunded" => some .ApplicationFeeRefunded
  | "application_fee.refund.updated" => some .ApplicationFeeRefundUpdated
  | "balance.available" => some .BalanceAvailable
  | "charge.captured" => some .ChargeCaptured
  | "charge.failed" => some .ChargeFailed
  | "charge.pending" => some .ChargePending
  | "charge.refunded" => some .ChargeRefunded
  | "charge.succeeded" => some .ChargeSucceeded
  | "charge.updated" => some .ChargeUpdated
  | "charge.dispute.closed" => some .ChargeDisputeClosed
  | "charge.dispute.created" => some .ChargeDisputeCreated
  | "charge.dispute.funds_reinstated" => some .ChargeDisputeFundsReinstated
  | "charge.dispute.funds_withdrawn" => some .ChargeDisputeFundsWithdrawn
  | "charge.dispute.updated" => some .ChargeDisputeUpdated
  | "charge.refund.updated" => some .ChargeRefundUpdated
  | "coupon.created" => some .CouponCreated
  | "coupon.deleted" => some .CouponDeleted
  | "coupon.updated" => some .CouponUpdated
  | "customer.created" => some .CustomerCreated
  | "customer.deleted" => some .CustomerDeleted
  | "customer.updated" => some .CustomerUpdated
  | "customer.discount.created" => some .CustomerDiscountCreated
  | "customer.discount.deleted" => some .CustomerDiscountDeleted
  | "customer.discount.updated" => some .CustomerDiscountUpdated
  | "customer.source.created" => some .CustomerSourceCreated
  | "customer.source.deleted" => some .CustomerSourceDeleted
  | "customer.source.updated" => some .CustomerSourceUpdated
  | "customer.subscription.created" => some .CustomerSubscriptionCreated
  | "customer.subscription.deleted" => some .CustomerSubscriptionDeleted
  | "customer.subscription.trial_will_end" => some .CustomerSubscriptionTrialWillEnd
  | "customer.subscription.updated" => some .CustomerSubscriptionUpdated
  | "file.created" => some .FileCreated
  | "invoice.created" => some .InvoiceCreated
  | "invoice.payment_failed" => some .InvoicePaymentFailed
  | "invoice.payment_succeeded" => some .InvoicePaymentSucceeded
  | "invoice.updated" => some .InvoiceUpdated
  | "invoice.upcoming" => some .InvoiceUpcoming
  | "invoiceitem.created" => some .InvoiceItemCreated
  | "invoiceitem.deleted" => some .InvoiceItemDeleted
  | "invoiceitem.updated" => some .InvoiceItemUpdated
  | "order.created" => some .OrderCreated
  | "order.payment_failed" => some .OrderPaymentFailed
  | "order.payment_succeeded" => some .OrderPaymentSucceeded
  | "order.updated" => some .OrderUpdated
  | "order_return.updated" => some .OrderReturnUpdated
  | "payout.canceled" => some .PayoutCanceled
  | "payout.created" => some .PayoutCreated
  | "payout.failed" => some .PayoutFailed
  | "payout.paid" => some .PayoutPaid
  | "payout.updated" => some .PayoutUpdated
  | "plan.created" => some .PlanCreated
  | "plan.deleted" => some .PlanDeleted
  | "plan.updated" => some .PlanUpdated
  | "product.created" => some .ProductCreated
  | "product.deleted" => some .ProductDeleted
  | "product.updated" => some .ProductUpdated
  | "review.closed" => some .ReviewClosed
  | "review.opened" => some .ReviewOpened
  | "sigma.scheduled_query_run.created" => some .SigmaScheduledQueryRunCreated
  | "sku.created" => some .SkuCreated
  | "sku.deleted" => some .SkuDeleted
  | "sku.updated" => some .SkuUpdated
  | "source.canceled" => some .SourceCanceled
  | "source.chargeable" => some .Sourcechargeable
  | "source.failed" => some .SourceFailed
  | "source.transaction.created" => some .SourceTransactionCreated
  | "transfer.created" => some .TransferCreated
  | "transfer.reversed" => some .TransferReversed
  | "transfer.updated" => some .TransferUpdated
  | _ => none

/-- The tag-dispatched union keyed by the `"object"` discriminant
(`EventObject` in the source).  Each variant carries the JSON object it was
decoded from; the resource structs themselves are external collaborators. -/
inductive EventObject
  | Account (j : Json)
  | ApplicationFee (j : Json)
  | ApplicationFeeRefund (j : Json)
  | Balance (j : Json)
  | BankAccount (j : Json)
  | Charge (j : Json)
  | Dispute (j : Json)
  | File (j : Json)
  | Invoice (j : Json)
  | InvoiceItem (j : Json)
  | Order (j : Json)
  | OrderReturn (j : Json)
  | Payout (j : Json)
  | Plan (j : Json)
  | Product (j : Json)
  | Refund (j : Json)
  | Review (j : Json)
  | Sku (j : Json)
  | Subscription (j : Json)
  | Transaction (j : Json)
  | Transfer (j : Json)

/-- The known values of the `"object"` discriminant: the variant names under
`rename_all = "snake_case"`, plus the explicit `rename = "fee_refund"`. -/
def eventObjectTags : List String :=
  ["account", "application_fee", "fee_refund", "balance", "bank_account",
   "charge", "dispute", "file", "invoice", "invoice_item", "order",
   "order_return", "payout", "plan", "product", "refund", "review", "sku",
   "subscription", "transaction", "transfer"]

/-- Modelled from the spec: serde's derived deserializer for the internally
tagged `EventObject` (`serde(tag = "object")`, generated code not under
`src/`): the `"object"` field must be present, be a string, and "match
exactly one known resource kind; unknown discriminants are a parse failure
(no permissive fallback)". -/
def EventObject.fromJson (j : Json) : Except String EventObject :=
  match j with
  | .obj fields =>
    match lookupField "object" fields with
    | some (.str tag) =>
      if tag = "account" then .ok (.Account j)
      else if tag = "application_fee" then .ok (.ApplicationFee j)
      else if tag = "fee_refund" then .ok (.ApplicationFeeRefund j)
      else if tag = "balance" then .ok (.Balance j)
      else if tag = "bank_account" then .ok (.BankAccount j)
      else if tag = "charge" then .ok (.Charge j)
      else if tag = "dispute" then .ok (.Dispute j)
      else if tag = "file" then .ok (.File j)
      else if tag = "invoice" then .ok (.Invoice j)
      else if tag = "invoice_item" then .ok (.InvoiceItem j)
      else if tag = "order" then .ok (.Order j)
      else if tag = "order_return" then .ok (.OrderReturn j)
      else if tag = "payout" then .ok (.Payout j)
      else if tag = "plan" then .ok (.Plan j)
      else if tag = "product" then .ok (.Product j)
      else if tag = "refund" then .ok (.Refund j)
      else if tag = "review" then .ok (.Review j)
      else if tag = "sku" then .ok (.Sku j)
      else if tag = "subscription" then .ok (.Subscription j)
      else if tag = "transaction" then .ok (.Transaction j)
      else if tag = "transfer" then .ok (.Transfer j)
      else .error ("unknown object discriminant: " ++ tag)
    | some _ => .error "object discriminant is not a string"
    | none => .error "missing object discriminant"
  | _ => .error "expected a JSON object"

/-- `EventData` in the source: the `data` member of an event, holding the
polymorphic `object` payload. -/
structure EventData where
  object : EventObject

/-- `Event` in the source: the typed event, with the wire field `type`
renamed to `event_type`. -/
structure Event where
  event_type : EventType
  data : EventData

/-- Modelled from the spec: serde's derived deserializer for `EventType`
(a unit-variant enum decoded from its wire name). -/
def EventType.fromJson (j : Json) : Except String EventType :=
  match j with
  | .str s =>
    match EventType.fromString s with
    | some et => .ok et
    | none => .error ("unknown event type: " ++ s)
  | _ => .error "event type is not a string"

/-- Modelled from the spec: serde's derived deserializer for `EventData`
(required field `object`; unknown fields ignored). -/
def EventData.fromJson (j : Json) : Except String EventData :=
  match j with
  | .obj fields =>
    match lookupField "object" fields with
    | some oj =>
      match EventObject.fromJson oj with
      | .ok o => .ok ⟨o⟩
      | .error m => .error m
    | none => .error "missing field: object"
  | _ => .error "expected a JSON object"

/-- Modelled from the spec: serde's derived deserializer for `Event`
(required fields `type` and `data`; unknown fields ignored). -/
def Event.fromJson (j : Json) : Except String Event :=
  match j with
  | .obj fields =>
    match lookupField "type" fields with
    | none => .error "missing field: type"
    | some tj =>
      match EventType.fromJson tj with
      | .error m => .error m
      | .ok et =>
        match lookupField "data" fields with
        | none => .error "missing field: data"
        | some dj =>
          match EventData.fromJson dj with
          | .error m => .error m
          | .ok d => .ok ⟨et, d⟩
  | _ => .error "expected a JSON object"

/-- Model of `json::from_str::<Event>`: parse the text as JSON, then decode
the typed event. -/
def event_from_str (payload : String) : Except String Event :=
  match jsonParse payload with
  | .error m => .error m
  | .ok j => Event.fromJson j

/-! ## The webhook verifier (`Webhook::construct_event`) -/

/-- The webhook failure taxonomy (`WebhookError` in `error.rs`; that file is
not under `src/`, so the variants are modelled from the spec's four-way
taxonomy and the constructor applications visible in `construct_event`):
`BadHeader` (malformed header, carries the integer-parse failure),
`BadSignature`, `BadTimestamp` (carries the rejected timestamp) and
`BadParse` (payload parse failure, carries the JSON error). -/
inductive WebhookError
  | BadHeader
  | BadSignature
  | BadTimestamp (t : Int)
  | BadParse (m : String)

/-- Outcome of a call to `construct_event`: a typed event, a discriminated
`WebhookError`, or `crash` — the model of a Rust panic (here: an
out-of-bounds `Vec` index). -/
inductive WebhookResult
  | ok (e : Event)
  | err (e : WebhookError)
  | crash

/-- `Webhook::construct_event` (src/resources/event.rs, lines 207-240),
translated statement by statement.  The two external effects are explicit
parameters: `hmac secret msg` stands for the HMAC-SHA256 digest bytes
computed by the `hmac`/`sha2` dependencies, and `current` for
`Utc::now().timestamp()`.

The source splits `sig` on `","` and trims each field, splits field 0 and
field 1 on `"="`, and indexes positions `[1]` of both without a bounds check
(`crash` when absent); it builds the signed payload `timestamp[1] ++ "." ++
payload`, parses `timestamp[1]` as an `i64` (`BadHeader` on failure), then
checks `is_equal` of the digest against the UTF-8 bytes of `signature[1]`
(`BadSignature`), then the freshness bound `current - timestamp > 300`
(`BadTimestamp`), and only then parses the payload (`BadParse`). -/
def construct_event (hmac : String → String → List Nat)
    (payload sig secret : String) (current : Int) : WebhookResult :=
  let headers : List String :=
    (splitChar ',' sig.data).map (fun cs => String.mk (trimChars cs))
  let timestamp : List String :=
    (splitChar '=' (headers.headD "").data).map String.mk
  match timestamp[1]? with
  | none => .crash
  | some ts1 =>
    let signed_payload : String := ts1 ++ "." ++ payload
    match headers[1]? with
    | none => .crash
    | some h1 =>
      match ((splitChar '=' h1.data).map String.mk)[1]? with
      | none => .crash
      | some sig1 =>
        let result := hmac secret signed_payload
        let bytes_signature := utf8Bytes sig1
        match parse_i64 ts1 with
        | none => .err .BadHeader
        | some num_timestamp =>
          if is_equal result bytes_signature = false then .err .BadSignature
          else if current - num_timestamp > 300 then .err (.BadTimestamp num_timestamp)
          else
            match event_from_str payload with
            | .ok e => .ok e
            | .error m => .err (.BadParse m)

/-! ## The transport client (`src/client.rs`) -/

/-- Per-call contextual parameters (`Params` in the source). -/
structure Params where
  stripe_account : Option String

/-- The transport client: the reference-counted connection handle (opaque
here), the secret credential and the contextual parameters. -/
structure Client where
  client : Nat
  secret_key : String
  params : Params

/-- `Client::with` (the name `with` is a Lean keyword): clone the client and
replace its params, leaving the original untouched. -/
def Client.withParams (c : Client) (params : Params) : Client :=
  { c with params := params }

/-- The inner API error object (`RequestError` in `error.rs`; that file is
not under `src/`, so it is modelled from the spec's Typed Error Envelope: "a
human message (optional), an HTTP status (filled in from the transport, not
from the body), and other API-specific fields (code, type, param — opaque to
the transport)").  `Default` gives an empty error. -/
structure RequestError where
  http_status : Nat := 0
  message : Option String := none
  code : Option String := none
  error_type : Option String := none
  param : Option String := none

/-- The Typed Error Envelope (`ErrorObject` in `error.rs`): a JSON object
wrapping the inner error object under the key `error`. -/
structure ErrorObject where
  error : RequestError

/-- The transport error type (`Error` in `error.rs`, modelled from the
spec's taxonomy): a structured API error reported by the service, or a
transport-level deserialization failure — the two must stay distinct. -/
inductive Error
  | Stripe (e : RequestError)
  | Deserialize (m : String)

/-- A wire response: status code and raw body bytes. -/
structure HttpResponse where
  status : Nat
  body : List Nat

/-- Outcome of `Client::send`: a typed value, a discriminated `Error`, or
`crash` — the model of a Rust panic (here: the `unwrap` of the body future,
which maps a UTF-8 decoding failure to `Err(())` first). -/
inductive SendResult (T : Type)
  | ok (t : T)
  | err (e : Error)
  | crash

/-- Strict UTF-8 decoding of a byte list, as `String::from_utf8`: rejects
invalid leading bytes, truncated or invalid continuation bytes, overlong
forms, surrogates and values above `0x10FFFF`. -/
def utf8Decode : List Nat → Option (List Char)
  | [] => some []
  | b :: bs =>
    if b < 0x80 then
      (utf8Decode bs).map (fun cs => Char.ofNat b :: cs)
    else if 0xC2 ≤ b ∧ b ≤ 0xDF then
      match bs with
      | b2 :: rest =>
        if 0x80 ≤ b2 ∧ b2 ≤ 0xBF then
          (utf8Decode rest).map
            (fun cs => Char.ofNat (((b - 0xC0) <<< 6) + (b2 - 0x80)) :: cs)
        else none
      | [] => none
    else if 0xE0 ≤ b ∧ b ≤ 0xEF then
      match bs with
      | b2 :: b3 :: rest =>
        let lo2 : Nat := if b = 0xE0 then 0xA0 else 0x80
        let hi2 : Nat := if b = 0xED then 0x9F else 0xBF
        if (lo2 ≤ b2 ∧ b2 ≤ hi2) ∧ (0x80 ≤ b3 ∧ b3 ≤ 0xBF) then
          (utf8Decode rest).map
            (fun cs =>
              Char.ofNat (((b - 0xE0) <<< 12) + ((b2 - 0x80) <<< 6) + (b3 - 0x80)) :: cs)
        else none
      | _ => none
    else if 0xF0 ≤ b ∧ b ≤ 0xF4 then
      match bs with
      | b2 :: b3 :: b4 :: rest =>
        let lo2 : Nat := if b = 0xF0 then 0x90 else 0x80
        let hi2 : Nat := if b = 0xF4 then 0x8F else 0xBF
        if (lo2 ≤ b2 ∧ b2 ≤ hi2) ∧ (0x80 ≤ b3 ∧ b3 ≤ 0xBF) ∧ (0x80 ≤ b4 ∧ b4 ≤ 0xBF) then
          (utf8Decode rest).map
            (fun cs =>
              Char.ofNat (((b - 0xF0) <<< 18) + ((b2 - 0x80) <<< 12) +
                ((b3 - 0x80) <<< 6) + (b4 - 0x80)) :: cs)
        else none
      | _ => none
    else none

/-- `Client::send` (src/client.rs, lines 113-142), translated statement by
statement over an already-received wire response.  The two deserializers are
explicit parameters standing for `serde_json::from_str` at the two types
used: `parseT` for the success type `T` and `parseEnv` for the Typed Error
Envelope.

The source first buffers the whole body and decodes it as UTF-8 — a decoding
failure was mapped to `Err(())` and is then `unwrap`ped, i.e. a panic
(`crash`).  On status 200-299 the body is deserialized into `T`
(`Error::Deserialize` on failure); on any other status the body is parsed as
the envelope, falling back to a synthetic envelope whose message embeds the
parse failure, the envelope's `http_status` is overwritten with the
transport's status, and the result is an `Error.Stripe`. -/
def send {T : Type} (parseT : String → Except String T)
    (parseEnv : String → Except String ErrorObject)
    (response : HttpResponse) : SendResult T :=
  match utf8Decode response.body with
  | none => .crash
  | some chars =>
    let body : String := String.mk chars
    if 200 ≤ response.status ∧ response.status ≤ 299 then
      match parseT body with
      | .ok t => .ok t
      | .error m => .err (.Deserialize m)
    else
      let errObj : ErrorObject :=
        match parseEnv body with
        | .ok e => e
        | .error m =>
          { error := { message := some ("failed to deserialize error: " ++ m) } }
      .err (.Stripe { errObj.error with http_status := response.status })

/-! ## Helper definitions and lemmas -/

/-- The tail of `construct_event` once the two header fields have been
extracted: integer-parse of the timestamp, signature check, freshness check,
payload parse — in source order. -/
def verify_core (hmac : String → String → List Nat)
    (payload secret ts1 sig1 : String) (current : Int) : WebhookResult :=
  match parse_i64 ts1 with
  | none => .err .BadHeader
  | some num_timestamp =>
    if is_equal (hmac secret (ts1 ++ "." ++ payload)) (utf8Bytes sig1) = false then
      .err .BadSignature
    else if current - num_timestamp > 300 then .err (.BadTimestamp num_timestamp)
    else
      match event_from_str payload with
      | .ok e => .ok e
      | .error m => .err (.BadParse m)

/-- The final step of `construct_event`: the payload parse, mapped into the
webhook result. -/
def parse_outcome (payload : String) : WebhookResult :=
  match event_from_str payload with
  | .ok e => .ok e
  | .error m => .err (.BadParse m)

/-- `construct_event` reduces to `verify_core` whenever the signature header
splits into at least two comma-separated fields whose `=`-splits each have at
least two parts (the source reads exactly positions `[0]` and `[1]` and never
checks the key names). -/
theorem construct_event_eq (hmac : String → String → List Nat)
    (payload sig secret : String) (current : Int)
    (tF sF : String) (rest : List String) (tk ts1 sk sig1 : String)
    (tr sr : List String)
    (hh : (splitChar ',' sig.data).map (fun cs => String.mk (trimChars cs)) = tF :: sF :: rest)
    (ht : (splitChar '=' tF.data).map String.mk = tk :: ts1 :: tr)
    (hs : (splitChar '=' sF.data).map String.mk = sk :: sig1 :: sr) :
    construct_event hmac payload sig secret current
      = verify_core hmac payload secret ts1 sig1 current := by
  simp only [construct_event, hh, List.headD_cons, ht, hs,
    List.getElem?_cons_succ, List.getElem?_cons_zero]
  rfl

/-- `ct_fold` performs exactly `min |as| |bs|` byte comparisons. -/
theorem ct_fold_count (as bs : List Nat) :
    (ct_fold as bs).2 = min as.length bs.length := by
  induction as generalizing bs with
  | nil => cases bs <;> simp [ct_fold]
  | cons a as ih =>
    cases bs with
    | nil => simp [ct_fold]
    | cons b bs =>
      simp only [ct_fold, ih, List.length_cons]
      omega

/-- A hex digit of a value below 16 is a one-byte (ASCII) character in
UTF-8. -/
theorem utf8_hexDigitChar_length : ∀ n < 16, (utf8EncodeChar (hexDigitChar n)).length = 1 := by
  decide

/-- The UTF-8 bytes of the hex rendering of a byte list are twice as many as
the bytes rendered. -/
theorem utf8_hexEncodeChars_length (bs : List Nat) (h : ∀ b ∈ bs, b < 256) :
    (utf8List (hexEncodeChars bs)).length = 2 * bs.length := by
  induction bs with
  | nil => simp [hexEncodeChars, utf8List]
  | cons b bs ih =>
    have hb : b < 256 := h b (List.mem_cons_self b bs)
    have h1 : (utf8EncodeChar (hexDigitChar (b / 16))).length = 1 :=
      utf8_hexDigitChar_length _ (by omega)
    have h2 : (utf8EncodeChar (hexDigitChar (b % 16))).length = 1 :=
      utf8_hexDigitChar_length _ (by omega)
    have ih' := ih (fun x hx => h x (List.mem_cons_of_mem b hx))
    simp only [hexEncodeChars, utf8List, List.length_append, List.length_cons,
      h1, h2, ih']
    omega

/-! ## Claims -/

/-- C1: the claim states that a header carrying the digest computed per the
documented HMAC-SHA256 scheme (the hex digest string of the HMAC over
`timestamp ++ "." ++ payload`) within the tolerance window makes
`Webhook::construct_event` return `Ok`.  The code instead compares the raw
32-byte digest against the UTF-8 bytes of the 64-character hex string, so
the lengths never agree and every correctly signed webhook is rejected with
`BadSignature`.  This theorem evaluates the code on exactly the claimed
inputs: for every digest function with 32-byte output (as HMAC-SHA256 has)
and every in-tolerance timestamp, the result is `Err(BadSignature)`. -/
theorem c1_documented_scheme_always_rejected
    (hmac : String → String → List Nat)
    (payload sig secret : String) (current : Int)
    (tF sF : String) (rest : List String) (tk ts1 sk : String)
    (tr sr : List String) (digest : List Nat) (ts : Int)
    (hh : (splitChar ',' sig.data).map (fun cs => String.mk (trimChars cs)) = tF :: sF :: rest)
    (ht : (splitChar '=' tF.data).map String.mk = tk :: ts1 :: tr)
    (hs : (splitChar '=' sF.data).map String.mk = sk :: hexEncode digest :: sr)
    (hdig : digest = hmac secret (ts1 ++ "." ++ payload))
    (hlen : digest.length = 32)
    (hbytes : ∀ b ∈ digest, b < 256)
    (hts : parse_i64 ts1 = some ts)
    (_hfresh : current - ts ≤ 300) :
    construct_event hmac payload sig secret current = .err .BadSignature := by
  rw [construct_event_eq hmac payload sig secret current tF sF rest tk ts1 sk
    (hexEncode digest) tr sr hh ht hs]
  unfold verify_core
  rw [hts]
  have hlen2 : (utf8Bytes (hexEncode digest)).length = 64 := by
    have : (utf8Bytes (hexEncode digest)).length = 2 * digest.length := by
      unfold utf8Bytes hexEncode
      exact utf8_hexEncodeChars_length digest hbytes
    rw [this, hlen]
  have hne : is_equal (hmac secret (ts1 ++ "." ++ payload))
      (utf8Bytes (hexEncode digest)) = false := by
    unfold is_equal
    rw [← hdig, if_neg]
    rw [hlen2, hlen]
    omega
  rw [hne]
  simp

/-- C1 witness: a concrete instantiation — digest function returning 32 zero
bytes, header carrying its 64-character hex digest, timestamp exactly
current — is rejected with `BadSignature`. -/
theorem c1_witness :
    construct_event (fun _ _ => List.replicate 32 0) "x"
      "t=1000,v1=0000000000000000000000000000000000000000000000000000000000000000"
      "s" 1000 = .err .BadSignature :=
  c1_documented_scheme_always_rejected (fun _ _ => List.replicate 32 0) "x"
    "t=1000,v1=0000000000000000000000000000000000000000000000000000000000000000"
    "s" 1000 "t=1000"
    "v1=0000000000000000000000000000000000000000000000000000000000000000"
    [] "t" "1000" "v1" [] [] (List.replicate 32 0) 1000
    rfl rfl rfl rfl rfl (by decide) rfl (by decide)

/-- C2: the claim states that every malformed signature header (a field
missing its `=`, or the `t`/`v1` fields absent) yields the malformed-header
error variant and never a panic.  The code indexes `headers[1]` and
`timestamp[1]` without bounds checks, so a header with no comma (`"t=123"`)
and a header whose first field has no `=` (`"t,v1=abc"`) both panic
(modelled as `crash`) instead of returning `BadHeader`. -/
theorem c2_malformed_header_crashes
    (hmac : String → String → List Nat) (payload secret : String) (current : Int) :
    construct_event hmac payload "t=123" secret current = .crash ∧
    construct_event hmac payload "t,v1=abc" secret current = .crash :=
  ⟨rfl, rfl⟩

/-- C3: once the header fields are extracted and the timestamp parses, a
failing signature check yields `BadSignature` for every payload, a passing
signature check with a stale timestamp yields `BadTimestamp`, and the
payload is parsed (yielding `ok` or `BadParse`) only when both checks
pass — the payload-parse error can never surface when verification fails. -/
theorem c3_verification_short_circuits
    (hmac : String → String → List Nat)
    (payload sig secret : String) (current : Int)
    (tF sF : String) (rest : List String) (tk ts1 sk sig1 : String)
    (tr sr : List String) (ts : Int)
    (hh : (splitChar ',' sig.data).map (fun cs => String.mk (trimChars cs)) = tF :: sF :: rest)
    (ht : (splitChar '=' tF.data).map String.mk = tk :: ts1 :: tr)
    (hs : (splitChar '=' sF.data).map String.mk = sk :: sig1 :: sr)
    (hts : parse_i64 ts1 = some ts) :
    (is_equal (hmac secret (ts1 ++ "." ++ payload)) (utf8Bytes sig1) = false →
      construct_event hmac payload sig secret current = .err .BadSignature) ∧
    (is_equal (hmac secret (ts1 ++ "." ++ payload)) (utf8Bytes sig1) = true →
      300 < current - ts →
      construct_event hmac payload sig secret current = .err (.BadTimestamp ts)) ∧
    (is_equal (hmac secret (ts1 ++ "." ++ payload)) (utf8Bytes sig1) = true →
      current - ts ≤ 300 →
      construct_event hmac payload sig secret current = parse_outcome payload) := by
  rw [construct_event_eq hmac payload sig secret current tF sF rest tk ts1 sk
    sig1 tr sr hh ht hs]
  unfold verify_core
  rw [hts]
  refine ⟨fun hf => ?_, fun htr hst => ?_, fun htr hst => ?_⟩
  · rw [hf]
    simp
  · rw [htr]
    simp only [Bool.true_eq_false, if_false]
    rw [if_pos hst]
  · rw [htr]
    simp only [Bool.true_eq_false, if_false]
    rw [if_neg (by omega)]
    rfl

/-- C3 witness: with a 3-byte digest function, a mismatching signature value
is rejected as `BadSignature` regardless of the (unparseable) payload, and a
matching one with a fresh timestamp reaches the payload parse. -/
theorem c3_witness :
    construct_event (fun _ _ => [115, 105, 103]) "x" "t=1000,v1=nope" "s" 1000
      = .err .BadSignature ∧
    construct_event (fun _ _ => [115, 105, 103]) "x" "t=1000,v1=sig" "s" 1000
      = parse_outcome "x" :=
  ⟨(c3_verification_short_circuits (fun _ _ => [115, 105, 103]) "x"
      "t=1000,v1=nope" "s" 1000 "t=1000" "v1=nope" [] "t" "1000" "v1" "nope"
      [] [] 1000 rfl rfl rfl rfl).1 rfl,
   (c3_verification_short_circuits (fun _ _ => [115, 105, 103]) "x"
      "t=1000,v1=sig" "s" 1000 "t=1000" "v1=sig" [] "t" "1000" "v1" "sig"
      [] [] 1000 rfl rfl rfl rfl).2.2 rfl (by decide)⟩

/-- C5: with the signature check passing, a header timestamp exactly 301
seconds before the current time is rejected as `BadTimestamp`, while exactly
300 seconds in the past passes the freshness check and the call proceeds to
the payload parse. -/
theorem c5_tolerance_boundary
    (hmac : String → String → List Nat)
    (payload sig secret : String) (current : Int)
    (tF sF : String) (rest : List String) (tk ts1 sk sig1 : String)
    (tr sr : List String) (ts : Int)
    (hh : (splitChar ',' sig.data).map (fun cs => String.mk (trimChars cs)) = tF :: sF :: rest)
    (ht : (splitChar '=' tF.data).map String.mk = tk :: ts1 :: tr)
    (hs : (splitChar '=' sF.data).map String.mk = sk :: sig1 :: sr)
    (hts : parse_i64 ts1 = some ts)
    (hsig : is_equal (hmac secret (ts1 ++ "." ++ payload)) (utf8Bytes sig1) = true) :
    (current - ts = 301 →
      construct_event hmac payload sig secret current = .err (.BadTimestamp ts)) ∧
    (current - ts = 300 →
      construct_event hmac payload sig secret current = parse_outcome payload) := by
  rw [construct_event_eq hmac payload sig secret current tF sF rest tk ts1 sk
    sig1 tr sr hh ht hs]
  unfold verify_core
  rw [hts, hsig]
  simp only [Bool.true_eq_false, if_false]
  refine ⟨fun h301 => ?_, fun h300 => ?_⟩
  · rw [if_pos (by omega)]
  · rw [if_neg (by omega)]
    rfl

/-- C5 witness: timestamp 1000, wall clock 1301 is rejected as stale;
wall clock 1300 passes the freshness check and reaches the payload parse. -/
theorem c5_witness :
    construct_event (fun _ _ => [115, 105, 103]) "x" "t=1000,v1=sig" "s" 1301
      = .err (.BadTimestamp 1000) ∧
    construct_event (fun _ _ => [115, 105, 103]) "x" "t=1000,v1=sig" "s" 1300
      = parse_outcome "x" :=
  ⟨(c5_tolerance_boundary (fun _ _ => [115, 105, 103]) "x" "t=1000,v1=sig"
      "s" 1301 "t=1000" "v1=sig" [] "t" "1000" "v1" "sig" [] [] 1000
      rfl rfl rfl rfl rfl).1 (by decide),
   (c5_tolerance_boundary (fun _ _ => [115, 105, 103]) "x" "t=1000,v1=sig"
      "s" 1300 "t=1000" "v1=sig" [] "t" "1000" "v1" "sig" [] [] 1000
      rfl rfl rfl rfl rfl).2 (by decide)⟩

/-- C10: the freshness check `current - timestamp > 300` is one-sided — a
header timestamp strictly in the future, arbitrarily far, is never rejected
as stale, and with a matching signature the call proceeds to the payload
parse. -/
theorem c10_future_timestamps_accepted
    (hmac : String → String → List Nat)
    (payload sig secret : String) (current : Int)
    (tF sF : String) (rest : List String) (tk ts1 sk sig1 : String)
    (tr sr : List String) (ts : Int)
    (hh : (splitChar ',' sig.data).map (fun cs => String.mk (trimChars cs)) = tF :: sF :: rest)
    (ht : (splitChar '=' tF.data).map String.mk = tk :: ts1 :: tr)
    (hs : (splitChar '=' sF.data).map String.mk = sk :: sig1 :: sr)
    (hts : parse_i64 ts1 = some ts)
    (hsig : is_equal (hmac secret (ts1 ++ "." ++ payload)) (utf8Bytes sig1) = true)
    (hfut : current < ts) :
    construct_event hmac payload sig secret current = parse_outcome payload := by
  rw [construct_event_eq hmac payload sig secret current tF sF rest tk ts1 sk
    sig1 tr sr hh ht hs]
  unfold verify_core
  rw [hts, hsig]
  simp only [Bool.true_eq_false, if_false]
  rw [if_neg (by omega)]
  rfl

/-- C10 witness: a timestamp 98999 seconds in the future is accepted and the
call reaches the payload parse. -/
theorem c10_witness :
    construct_event (fun _ _ => [115, 105, 103]) "x" "t=99999,v1=sig" "s" 1000
      = parse_outcome "x" :=
  c10_future_timestamps_accepted (fun _ _ => [115, 105, 103]) "x"
    "t=99999,v1=sig" "s" 1000 "t=99999" "v1=sig" [] "t" "99999" "v1" "sig"
    [] [] 99999 rfl rfl rfl rfl rfl (by decide)

/-- C4: the digest comparison is a constant-time equality check.  For any
computed digest, comparing it against two candidate byte lists of the full
digest length performs exactly the same number of byte comparisons — the
digest length — whatever and wherever the mismatching bytes are (no
short-circuit on the first mismatch); and the verdict of `is_equal` is the
XOR accumulator of all those comparisons tested against zero at the end. -/
theorem c4_comparison_constant_time (code d1 d2 : List Nat)
    (h1 : d1.length = code.length) (h2 : d2.length = code.length) :
    (ct_fold code d1).2 = code.length ∧
    (ct_fold code d1).2 = (ct_fold code d2).2 ∧
    is_equal code d1 = ((ct_fold code d1).1 == 0) := by
  have e1 := ct_fold_count code d1
  have e2 := ct_fold_count code d2
  refine ⟨?_, ?_, ?_⟩
  · rw [e1, h1, Nat.min_self]
  · rw [e1, e2, h1, h2]
  · unfold is_equal
    rw [if_pos h1]

/-- C4 witness: a digest differing from `[1, 2]` only in the last byte and
one differing only in the first byte take the same two byte comparisons. -/
theorem c4_witness :
    (ct_fold [1, 2] [1, 3]).2 = 2 ∧
    (ct_fold [1, 2] [1, 3]).2 = (ct_fold [1, 2] [9, 2]).2 ∧
    is_equal [1, 2] [1, 3] = ((ct_fold [1, 2] [1, 3]).1 == 0) :=
  c4_comparison_constant_time [1, 2] [1, 3] [9, 2] rfl rfl

/-- C8: deserializing an event payload whose `object` discriminant does not
name one of the known resource kinds fails with a parse error (no permissive
fallback variant), and consequently `construct_event` — when both
verification checks pass and the payload fails to deserialize — returns that
failure as `BadParse`. -/
theorem c8_unknown_discriminant_is_parse_error :
    (∀ (fields : List (String × Json)) (tag : String),
      lookupField "object" fields = some (Json.str tag) →
      tag ∉ eventObjectTags →
      EventObject.fromJson (Json.obj fields)
        = Except.error ("unknown object discriminant: " ++ tag)) ∧
    (∀ (hmac : String → String → List Nat)
      (payload sig secret : String) (current : Int)
      (tF sF : String) (rest : List String) (tk ts1 sk sig1 : String)
      (tr sr : List String) (ts : Int) (m : String),
      (splitChar ',' sig.data).map (fun cs => String.mk (trimChars cs)) = tF :: sF :: rest →
      (splitChar '=' tF.data).map String.mk = tk :: ts1 :: tr →
      (splitChar '=' sF.data).map String.mk = sk :: sig1 :: sr →
      parse_i64 ts1 = some ts →
      is_equal (hmac secret (ts1 ++ "." ++ payload)) (utf8Bytes sig1) = true →
      current - ts ≤ 300 →
      event_from_str payload = Except.error m →
      construct_event hmac payload sig secret current = .err (.BadParse m)) := by
  constructor
  · intro fields tag hlk hmem
    simp only [eventObjectTags, List.mem_cons, List.not_mem_nil, or_false,
      not_or] at hmem
    obtain ⟨n1, n2, n3, n4, n5, n6, n7, n8, n9, n10, n11, n12, n13, n14, n15,
      n16, n17, n18, n19, n20, n21⟩ := hmem
    simp only [EventObject.fromJson, hlk]
    rw [if_neg n1, if_neg n2, if_neg n3, if_neg n4, if_neg n5, if_neg n6,
      if_neg n7, if_neg n8, if_neg n9, if_neg n10, if_neg n11, if_neg n12,
      if_neg n13, if_neg n14, if_neg n15, if_neg n16, if_neg n17, if_neg n18,
      if_neg n19, if_neg n20, if_neg n21]
  · intro hmac payload sig secret current tF sF rest tk ts1 sk sig1 tr sr ts m
      hh ht hs hts hsig hfresh hparse
    rw [construct_event_eq hmac payload sig secret current tF sF rest tk ts1
      sk sig1 tr sr hh ht hs]
    unfold verify_core
    rw [hts, hsig]
    simp only [Bool.true_eq_false, if_false]
    rw [if_neg (by omega), hparse]

/-- C8 witness: the discriminant `"gadget"` is not a known resource kind, so
the event-object decoder rejects it, and a verified webhook carrying such a
payload is reported as `BadParse` with that very message. -/
theorem c8_witness :
    EventObject.fromJson (Json.obj [("object", Json.str "gadget")])
      = Except.error ("unknown object discriminant: " ++ "gadget") ∧
    construct_event (fun _ _ => [115, 105, 103])
      "\x7b\"type\":\"charge.succeeded\",\"data\":\x7b\"object\":\x7b\"object\":\"gadget\"\x7d\x7d\x7d"
      "t=1000,v1=sig" "s" 1000
      = .err (.BadParse "unknown object discriminant: gadget") :=
  ⟨c8_unknown_discriminant_is_parse_error.1 [("object", Json.str "gadget")]
      "gadget" rfl (by decide),
   c8_unknown_discriminant_is_parse_error.2 (fun _ _ => [115, 105, 103])
      "\x7b\"type\":\"charge.succeeded\",\"data\":\x7b\"object\":\x7b\"object\":\"gadget\"\x7d\x7d\x7d"
      "t=1000,v1=sig" "s" 1000 "t=1000" "v1=sig" [] "t" "1000" "v1" "sig"
      [] [] 1000 "unknown object discriminant: gadget"
      rfl rfl rfl rfl rfl (by decide) rfl⟩

/-- C6 counterexample: the claim promises an error result — never a crash —
for every non-2xx response, but a status-500 response whose body is the
single invalid UTF-8 byte `0xFF` makes `Client::send` panic (the UTF-8
failure is mapped to `Err(())` and then unwrapped) before the status is even
examined. -/
theorem c6_counterexample :
    send (fun _ => (Except.error "e" : Except String Unit))
      (fun _ => Except.error "e") ⟨500, [255]⟩ = SendResult.crash :=
  rfl

/-- C6 (amended): for every non-2xx response whose body decodes as UTF-8,
`Client::send` returns an `Err` carrying the Typed Error Envelope parsed
from the body with `http_status` overwritten from the transport's status
(never read from the body), and falls back to a synthetic envelope whose
message embeds the parse failure when the body does not parse as the
envelope; a non-UTF-8 body, however, panics. -/
theorem c6_error_envelope (T : Type) (parseT : String → Except String T)
    (parseEnv : String → Except String ErrorObject) (status : Nat)
    (bytes : List Nat) (chars : List Char)
    (hdec : utf8Decode bytes = some chars)
    (hstatus : ¬(200 ≤ status ∧ status ≤ 299)) :
    (∀ e, parseEnv (String.mk chars) = .ok e →
      send parseT parseEnv ⟨status, bytes⟩
        = .err (.Stripe { e.error with http_status := status })) ∧
    (∀ m, parseEnv (String.mk chars) = .error m →
      send parseT parseEnv ⟨status, bytes⟩
        = .err (.Stripe
            { http_status := status,
              message := some ("failed to deserialize error: " ++ m) })) := by
  constructor
  · intro e he
    simp only [send, hdec, if_neg hstatus, he]
  · intro m hm
    simp only [send, hdec, if_neg hstatus, hm]

/-- C6 witness: a 402 response with body `"a"` and an envelope parser that
accepts it yields a request error with the parser's message and the
transport's status; with a parser that rejects it, the synthetic fallback
envelope carries the embedded parse failure and the same status. -/
theorem c6_witness :
    send (fun _ => (Except.error "e" : Except String Unit))
      (fun _ => Except.ok ⟨{ message := some "declined" }⟩) ⟨402, [97]⟩
      = .err (.Stripe { http_status := 402, message := some "declined" }) ∧
    send (fun _ => (Except.error "e" : Except String Unit))
      (fun _ => Except.error "boom") ⟨402, [97]⟩
      = .err (.Stripe
          { http_status := 402,
            message := some ("failed to deserialize error: " ++ "boom") }) :=
  ⟨(c6_error_envelope Unit (fun _ => Except.error "e")
      (fun _ => Except.ok ⟨{ message := some "declined" }⟩) 402 [97] ['a']
      rfl (by decide)).1 ⟨{ message := some "declined" }⟩ rfl,
   (c6_error_envelope Unit (fun _ => Except.error "e")
      (fun _ => Except.error "boom") 402 [97] ['a']
      rfl (by decide)).2 "boom" rfl⟩

/-- C7 counterexample: the claim promises that a UTF-8 decoding failure of a
2xx body is returned as a recoverable deserialization error, but a
status-200 response whose body is the single invalid byte `0xFF` makes
`Client::send` panic instead. -/
theorem c7_counterexample :
    send (fun _ => (Except.error "e" : Except String Unit))
      (fun _ => Except.error "e") ⟨200, [255]⟩ = SendResult.crash :=
  rfl

/-- C7 (amended): for every 2xx response whose body decodes as UTF-8, the
whole buffered body is deserialized into `T`, a JSON-shape mismatch being
returned as a transport-level deserialization error that is distinct from
the API-error constructor; a UTF-8 decoding failure, however, panics rather
than being returned as an error. -/
theorem c7_success_deserialization (T : Type) (parseT : String → Except String T)
    (parseEnv : String → Except String ErrorObject) (status : Nat)
    (bytes : List Nat) (chars : List Char)
    (hdec : utf8Decode bytes = some chars)
    (hlo : 200 ≤ status) (hhi : status ≤ 299) :
    (∀ t, parseT (String.mk chars) = .ok t →
      send parseT parseEnv ⟨status, bytes⟩ = .ok t) ∧
    (∀ m, parseT (String.mk chars) = .error m →
      send parseT parseEnv ⟨status, bytes⟩ = .err (.Deserialize m)) ∧
    (∀ m e, Error.Deserialize m ≠ Error.Stripe e) := by
  refine ⟨fun t ht => ?_, fun m hm => ?_, fun m e => by simp⟩
  · simp only [send, hdec, if_pos (And.intro hlo hhi), ht]
  · simp only [send, hdec, if_pos (And.intro hlo hhi), hm]

/-- C7 witness: a 200 response with body `"a"` deserializes into the typed
value when the shape matches, and surfaces a `Deserialize` error distinct
from the API-error constructor when it does not. -/
theorem c7_witness :
    send (fun _ => (Except.ok () : Except String Unit))
      (fun _ => Except.error "e") ⟨200, [97]⟩ = .ok () ∧
    send (fun _ => (Except.error "bad shape" : Except String Unit))
      (fun _ => Except.error "e") ⟨200, [97]⟩
      = .err (.Deserialize "bad shape") :=
  ⟨(c7_success_deserialization Unit (fun _ => Except.ok ())
      (fun _ => Except.error "e") 200 [97] ['a'] rfl (by decide)
      (by decide)).1 () rfl,
   (c7_success_deserialization Unit (fun _ => Except.error "bad shape")
      (fun _ => Except.error "e") 200 [97] ['a'] rfl (by decide)
      (by decide)).2.1 "bad shape" rfl⟩

/-- C9: `Client::with` produces a derived client whose params are exactly
the given ones and whose secret key (and underlying connection handle) are
those of the original; being a pure copy-on-derive operation, it leaves the
original client value untouched. -/
theorem c9_with_copy_on_derive (c : Client) (p : Params) :
    (c.withParams p).params = p ∧
    (c.withParams p).secret_key = c.secret_key ∧
    (c.withParams p).client = c.client :=
  ⟨rfl, rfl, rfl⟩

end Stripe
